import Mathlib

/-!
Shallow embedding of the xpg_backend reward/progression core
(FastAPI + SQLAlchemy endpoints in `app/api/v1` and `app/api/admin`),
with proofs about the embedded operations.

Database rows are Lean structures, tables are lists, UUIDs are `Nat`,
timestamps are `ℚ` (seconds), and each endpoint is a pure function from
a `DB` state to a response together with the committed `DB` state, or an
`HttpErr` (in which case the surrounding transaction rolls back and the
state is unchanged).
-/

/-- Python `int()` truncation toward zero on a rational. -/
def pyTrunc (q : ℚ) : ℤ :=
  if 0 ≤ q then q.floor else -((-q).floor)

/-- The JSONB `profile` dict of a user: its `"points"` value when
that key is present, and whether any other keys are present.
`User.profile` is a plain `Column(JSONB)` — no `MutableDict`, no
`flag_modified` anywhere in the repository — so dict identity and
emptiness decide whether SQLAlchemy persists a cache write at
flush. -/
structure Profile where
  points : Option Int
  has_other_keys : Bool
deriving DecidableEq, Repr

/-- Row of `users` (model `User`): only the fields the core reads.
`profile = none` models a NULL profile column. -/
structure UserRec where
  id : Nat
  login_id : String
  email : Option String
  profile : Option Profile
deriving DecidableEq, Repr

/-- `User.profile.get("points", 0)` — the cached balance read
(`0` when the profile is NULL or has no `"points"` key). -/
def cachedPoints (u : UserRec) : Int :=
  match u.profile with
  | none => 0
  | some p => p.points.getD 0

/-- Python truthiness of the profile dict: `None` and `{}` are
falsy. -/
def profileFalsy : Option Profile → Bool
  | none => true
  | some p => p.points == none && !p.has_other_keys

/-- The dict written by the persisting cache updates: a copy of the
old profile (or a fresh `{}` when it was NULL) with `"points"` set. -/
def profileSetPoints (p : Option Profile) (pts : Int) : Profile :=
  { points := some pts,
    has_other_keys := match p with | none => false | some q => q.has_other_keys }

/-- Row of `auth_identities` (model `AuthIdentity`). -/
structure AuthIdentity where
  user_id : Nat
  provider : String
  password_hash : Option String
deriving DecidableEq, Repr

/-- Row of `nfc_tags` (model `NFCTag`). -/
structure NFCTag where
  id : Nat
  udid : String
  tag_name : String
  is_active : Bool
  cooldown_sec : Int
  use_limit : Option Int
  point_reward : Int
deriving DecidableEq, Repr

/-- Row of `nfc_scan_logs` (model `NFCScanLog`); `scanned_at` has
server default `now()`. -/
structure ScanLog where
  user_id : Nat
  nfc_id : Option Nat
  scanned_at : ℚ
  allowed : Bool
  reason : Option String
  hint_id : Option Nat
deriving DecidableEq, Repr

/-- Row of `stage_hints` (model `StageHint`).  `location`/`radius_m`
are the geofence target read by `verify_location` (PostGIS geography
point, modelled as a lon/lat pair). -/
structure StageHint where
  id : Nat
  stage_id : Nat
  order_no : Int
  reward_coin : Int
  nfc_id : Option Nat
  location : Option (ℚ × ℚ)
  radius_m : Option Int
deriving DecidableEq, Repr

/-- Row of `stages` (model `Stage`): the fields the progression core reads. -/
structure StageRec where
  id : Nat
  content_id : Nat
  parent_stage_id : Option Nat
  unlock_stage_id : Option Nat
deriving DecidableEq, Repr

/-- Row of `contents` (model `Content`): the fields the core reads. -/
structure ContentRec where
  id : Nat
  is_open : Bool
  is_always_on : Bool
  start_at : Option ℚ
  end_at : Option ℚ
  has_next_content : Bool
  next_content_id : Option Nat
deriving DecidableEq, Repr

/-- Row of `user_stage_progress` (model `UserStageProgress`);
composite key `(user_id, stage_id)`; `nfc_count` column default 0. -/
structure UserStageProgress where
  user_id : Nat
  stage_id : Nat
  status : String
  unlock_at : Option ℚ
  cleared_at : Option ℚ
  nfc_count : Int
  best_time_sec : Option Int
deriving DecidableEq, Repr

/-- Row of `user_content_progress` (model `UserContentProgress`);
composite key `(user_id, content_id)`. -/
structure UserContentProgress where
  user_id : Nat
  content_id : Nat
  status : String
  joined_at : Option ℚ
  cleared_at : Option ℚ
deriving DecidableEq, Repr

/-- Row of `rewards_ledger` (model `RewardLedger`): append-only. -/
structure LedgerEntry where
  user_id : Nat
  coin_delta : Int
  note : Option String
  content_id : Option Nat := none
  stage_id : Option Nat := none
  store_id : Option Nat := none
  store_reward_id : Option Nat := none
deriving DecidableEq, Repr

/-- Row of `store_rewards` (model `StoreReward`); `stock_qty = none`
means unlimited stock. -/
structure StoreReward where
  id : Nat
  store_id : Nat
  product_name : String
  price_coin : Int
  stock_qty : Option Int
  is_active : Bool
deriving DecidableEq, Repr

/-- The relational state the core endpoints read and write. -/
structure DB where
  users : List UserRec
  auth_identities : List AuthIdentity
  tags : List NFCTag
  hints : List StageHint
  stages : List StageRec
  contents : List ContentRec
  scan_logs : List ScanLog
  ledger : List LedgerEntry
  stage_progress : List UserStageProgress
  content_progress : List UserContentProgress
  store_rewards : List StoreReward
deriving DecidableEq, Repr

/-- `SUM(coin_delta) WHERE user_id = uid` over a ledger list. -/
def ledgerSum (l : List LedgerEntry) (uid : Nat) : Int :=
  ((l.filter (fun e => e.user_id == uid)).map (fun e => e.coin_delta)).sum

/-- `db.add(scan_log)`: append a scan-log row. -/
def DB.addLog (db : DB) (l : ScanLog) : DB :=
  { db with scan_logs := db.scan_logs ++ [l] }

/-- `db.add(RewardLedger(...))`: append a ledger row. -/
def DB.addLedger (db : DB) (e : LedgerEntry) : DB :=
  { db with ledger := db.ledger ++ [e] }

/-- The *persisting* cache write used by `scan_nfc`,
`verify_location` and `redeem_reward`: build `updated_profile` as a
`.copy()` of the old dict (or a fresh `{}` when NULL), set
`"points"`, and emit an explicit Core
`UPDATE users SET profile = updated_profile WHERE id = uid`
(or assign the genuinely new object, for `redeem_reward`), which
SQLAlchemy always flushes. -/
def DB.setUserPoints (db : DB) (uid : Nat) (pts : Int) : DB :=
  let f := fun (u : UserRec) =>
    if u.id == uid then { u with profile := some (profileSetPoints u.profile pts) } else u
  { db with users := db.users.map f }

/-- Stage-progress upsert shared by `scan_nfc` step 8 and
`verify_location` step 6: create `(uid, sid)` with status
`in_progress` and `nfc_count = 1` if absent, else increment
`nfc_count`. -/
def DB.bumpStageProgress (db : DB) (uid sid : Nat) : DB :=
  match db.stage_progress.find? (fun p => p.user_id == uid && p.stage_id == sid) with
  | none =>
      let row : UserStageProgress :=
        { user_id := uid, stage_id := sid, status := "in_progress",
          unlock_at := none, cleared_at := none, nfc_count := 1,
          best_time_sec := none }
      { db with stage_progress := db.stage_progress ++ [row] }
  | some _ =>
      let f := fun (p : UserStageProgress) =>
        if p.user_id == uid && p.stage_id == sid then
          { p with nfc_count := p.nfc_count + 1 } else p
      { db with stage_progress := db.stage_progress.map f }

/-- An `HTTPException(status_code, detail)`; raising it inside the
request transaction rolls the whole transaction back. -/
structure HttpErr where
  status : Nat
  detail : String
deriving DecidableEq, Repr

/-- The committed state of a request: the new state on success, the
original state on an exception (full rollback). -/
def finalDB {α : Type} (db : DB) (r : Except HttpErr (α × DB)) : DB :=
  match r with
  | .ok (_, db2) => db2
  | .error _ => db

/-- `next` advisory in scan/verify responses:
`{"type": "hint"|"stage", "id": ...}`. -/
inductive NextInfo where
  | hint (id : Nat)
  | stage (id : Nat)
deriving DecidableEq, Repr

/-- Schema `NFCScanRequest` (the fields `scan_nfc` reads). -/
structure NFCScanRequest where
  udid : String
  hint_id : Option Nat := none
deriving DecidableEq, Repr

/-- Schema `NFCScanResponse`. -/
structure NFCScanResponse where
  allowed : Bool
  reason : Option String := none
  point_reward : Int := 0
  cooldown_sec : Int := 0
  hint : Option Nat := none
  next : Option NextInfo := none
deriving DecidableEq, Repr

/-- `ORDER BY scanned_at DESC LIMIT 1` over a filtered log list
(first-encountered row wins ties, as the DB order is unspecified). -/
def latestScan (l : List ScanLog) : Option ScanLog :=
  l.foldl (fun acc x =>
    match acc with
    | none => some x
    | some m => if decide (m.scanned_at < x.scanned_at) then some x else some m) none

/-- The cooldown query of `scan_nfc` step 3: the user's allowed scans
of this tag with `scanned_at > now - cooldown_sec`. -/
def cooldownWindow (logs : List ScanLog) (uid tagId : Nat) (threshold : ℚ) : List ScanLog :=
  logs.filter (fun l =>
    l.user_id == uid && l.nfc_id == some tagId && l.allowed &&
      decide (threshold < l.scanned_at))

/-- The usage-limit query of `scan_nfc` step 4: count of the user's
allowed scans of this tag. -/
def allowedCount (logs : List ScanLog) (uid tagId : Nat) : Nat :=
  (logs.filter (fun l => l.user_id == uid && l.nfc_id == some tagId && l.allowed)).length

/-- `ORDER BY order_no ASC LIMIT 1` over a filtered hint list. -/
def firstByOrder (l : List StageHint) : Option StageHint :=
  l.foldl (fun acc x =>
    match acc with
    | none => some x
    | some m => if decide (x.order_no < m.order_no) then some x else some m) none

/-- The `next` advisory of `scan_nfc` step 10 / `verify_location`
step 7: the next-ordered hint in the hint's stage, else the stage. -/
def nextAdvisory (hints : List StageHint) (h : StageHint) : NextInfo :=
  match firstByOrder (hints.filter
      (fun x => x.stage_id == h.stage_id && decide (h.order_no < x.order_no))) with
  | some nh => NextInfo.hint nh.id
  | none => NextInfo.stage h.stage_id

/-- `scan_nfc` step 5 (hint resolution): if no `hint_id` was supplied,
look up the hint bound to the tag; if supplied, look it up directly
(the supplied id is kept for the log even when it matches no row). -/
def resolveHint (db : DB) (req : NFCScanRequest) (tag : NFCTag) :
    Option StageHint × Option Nat :=
  match req.hint_id with
  | none =>
      match db.hints.find? (fun h => h.nfc_id == some tag.id) with
      | some h => (some h, some h.id)
      | none => (none, none)
  | some hid => (db.hints.find? (fun h => h.id == hid), some hid)

/-- `scan_nfc` steps 5–10: the success path after the cooldown and
usage-limit gates have passed. -/
def scanSuccess (db : DB) (uid : Nat) (now : ℚ) (req : NFCScanRequest)
    (tag : NFCTag) : Except HttpErr (NFCScanResponse × DB) :=
  let hres := resolveHint db req tag
  let db1 := db.addLog
    { user_id := uid, nfc_id := some tag.id, scanned_at := now,
      allowed := true, reason := none, hint_id := hres.2 }
  let step7 : Except HttpErr DB :=
    if 0 < tag.point_reward then
      let name := tag.tag_name
      let db2 := db1.addLedger
        { user_id := uid, coin_delta := tag.point_reward,
          note := some s!"NFC scan: {name}" }
      match db2.users.find? (fun u => u.id == uid) with
      | none => .error ⟨404, "User not found during point update"⟩
      | some u => .ok (db2.setUserPoints uid (cachedPoints u + tag.point_reward))
    else .ok db1
  match step7 with
  | .error e => .error e
  | .ok db3 =>
    let db4 := match hres.1 with
      | some h => db3.bumpStageProgress uid h.stage_id
      | none => db3
    let hintInfo := hres.1.map (fun h => h.id)
    let nextInfo := hres.1.map (fun h => nextAdvisory db4.hints h)
    .ok ({ allowed := true, reason := none, point_reward := tag.point_reward,
           cooldown_sec := tag.cooldown_sec, hint := hintInfo,
           next := nextInfo }, db4)

/-- `f"Cooldown active ({...}s remaining)"` — the denied-log reason. -/
def cooldownLogMsg (remaining : ℤ) : String :=
  s!"Cooldown active ({remaining}s remaining)"

/-- `f"Cooldown active. Please wait {...} seconds."` — the response reason. -/
def cooldownWaitMsg (remaining : ℤ) : String :=
  s!"Cooldown active. Please wait {remaining} seconds."

/-- `scan_nfc` step 4: the usage-limit gate. -/
def scanUsage (db : DB) (uid : Nat) (now : ℚ) (req : NFCScanRequest)
    (tag : NFCTag) : Except HttpErr (NFCScanResponse × DB) :=
  match tag.use_limit with
  | some limit =>
      let usage_count := allowedCount db.scan_logs uid tag.id
      if limit ≤ (usage_count : ℤ) then
        let db1 := db.addLog
          { user_id := uid, nfc_id := some tag.id, scanned_at := now,
            allowed := false, reason := some "Usage limit reached", hint_id := none }
        .ok ({ allowed := false,
               reason := some "Usage limit reached for this NFC tag" }, db1)
      else scanSuccess db uid now req tag
  | none => scanSuccess db uid now req tag

/-- `scan_nfc` step 3: the cooldown gate. -/
def scanCooldown (db : DB) (uid : Nat) (now : ℚ) (req : NFCScanRequest)
    (tag : NFCTag) : Except HttpErr (NFCScanResponse × DB) :=
  if 0 < tag.cooldown_sec then
    match latestScan (cooldownWindow db.scan_logs uid tag.id (now - tag.cooldown_sec)) with
    | some recent =>
        let time_diff := now - recent.scanned_at
        let remaining : ℤ := pyTrunc ((tag.cooldown_sec : ℚ) - time_diff)
        let db1 := db.addLog
          { user_id := uid, nfc_id := some tag.id, scanned_at := now,
            allowed := false,
            reason := some (cooldownLogMsg remaining),
            hint_id := none }
        .ok ({ allowed := false,
               reason := some (cooldownWaitMsg remaining),
               cooldown_sec := remaining }, db1)
    | none => scanUsage db uid now req tag
  else scanUsage db uid now req tag

/-- `POST /api/v1/nfc/scan` (`scan_nfc` in `app/api/v1/nfc.py`):
tag lookup, activation, cooldown and usage-limit gates, hint
resolution, scan logging, point grant with cached-balance write,
stage-progress update, `next` advisory.  The whole body runs in one
transaction (`async with db.begin()`), so an exception commits
nothing. -/
def scan_nfc (db : DB) (uid : Nat) (now : ℚ) (req : NFCScanRequest) :
    Except HttpErr (NFCScanResponse × DB) :=
  match db.tags.find? (fun t => t.udid == req.udid) with
  | none =>
      let db1 := db.addLog
        { user_id := uid, nfc_id := none, scanned_at := now,
          allowed := false, reason := some "NFC tag not found", hint_id := none }
      .ok ({ allowed := false, reason := some "NFC tag not found" }, db1)
  | some tag =>
      if tag.is_active then scanCooldown db uid now req tag
      else
        let db1 := db.addLog
          { user_id := uid, nfc_id := some tag.id, scanned_at := now,
            allowed := false, reason := some "NFC tag is not active", hint_id := none }
        .ok ({ allowed := false, reason := some "NFC tag is not active" }, db1)

/-- The committed state after a `scan_nfc` request. -/
def scanFinalDB (db : DB) (uid : Nat) (now : ℚ) (req : NFCScanRequest) : DB :=
  finalDB db (scan_nfc db uid now req)

/-- Schema `LocationVerifyResponse`. -/
structure LocationVerifyResponse where
  allowed : Bool
  reason : Option String := none
  point_reward : Int := 0
  next : Option NextInfo := none
deriving DecidableEq, Repr

/-- `POST /api/v1/nfc/verify-location` (`verify_location` in
`app/api/v1/nfc.py`).  The great-circle distance in meters between
two geography points is computed by PostGIS `ST_Distance`, which is
outside this repository; it is passed as the oracle `gcDist` (the
spec: "Computes great-circle distance between the hint's stored point
and the supplied point").  The user's point is `POINT(lon lat)`.
`if not hint.location or not hint.radius_m` treats a missing point,
a missing radius, and a zero radius as "not configured". -/
def verify_location (gcDist : ℚ × ℚ → ℚ × ℚ → ℚ) (db : DB) (uid : Nat)
    (hintId : Nat) (latitude longitude : ℚ) :
    Except HttpErr (LocationVerifyResponse × DB) :=
  match db.hints.find? (fun h => h.id == hintId) with
  | none => .ok ({ allowed := false, reason := some "Hint not found" }, db)
  | some hint =>
    match hint.location, hint.radius_m with
    | none, _ =>
        .ok ({ allowed := false,
               reason := some "This hint does not have location verification configured." }, db)
    | some _, none =>
        .ok ({ allowed := false,
               reason := some "This hint does not have location verification configured." }, db)
    | some loc, some radius =>
      if radius == 0 then
        .ok ({ allowed := false,
               reason := some "This hint does not have location verification configured." }, db)
      else
        let distance_meters := gcDist loc (longitude, latitude)
        if decide ((radius : ℚ) < distance_meters) then
          let d := pyTrunc distance_meters
          .ok ({ allowed := false,
                 reason := some s!"Not within target area. Distance: {d}m, Required: {radius}m" }, db)
        else
          let step5 : Except HttpErr DB :=
            if 0 < hint.reward_coin then
              let hid := hint.id
              let db1 := db.addLedger
                { user_id := uid, coin_delta := hint.reward_coin,
                  note := some s!"Location verified: Hint {hid}" }
              match db1.users.find? (fun u => u.id == uid) with
              | none => .error ⟨500, "AttributeError: NoneType has no attribute profile"⟩
              | some u => .ok (db1.setUserPoints uid (cachedPoints u + hint.reward_coin))
            else .ok db
          match step5 with
          | .error e => .error e
          | .ok db2 =>
            let db3 := db2.bumpStageProgress uid hint.stage_id
            .ok ({ allowed := true, reason := none,
                   point_reward := hint.reward_coin,
                   next := some (nextAdvisory db3.hints hint) }, db3)

/-- Schema `RewardInfo`. -/
structure RewardInfo where
  coin_delta : Int
  note : Option String := none
deriving DecidableEq, Repr

/-- Schema `StageClearResponse`. -/
structure StageClearResponse where
  cleared : Bool := true
  rewards : List RewardInfo := []
  content_cleared : Bool := false
  next_content : Option Nat := none
deriving DecidableEq, Repr

/-- `best_time_sec` rule of `clear_stage`: keep the request value only
when no best is stored or the request is strictly smaller. -/
def applyBestTime (p : UserStageProgress) (req : Option Int) : UserStageProgress :=
  match req with
  | none => p
  | some b =>
      match p.best_time_sec with
      | none => { p with best_time_sec := some b }
      | some old => if b < old then { p with best_time_sec := some b } else p

/-- The top-level stages of a content: `parent_stage_id IS NULL`. -/
def topLevelStages (stages : List StageRec) (contentId : Nat) : List StageRec :=
  stages.filter (fun s => s.content_id == contentId && s.parent_stage_id == none)

/-- `clear_stage` after the already-cleared early return: overwrite or
create the stage progress as `cleared`, apply the best-time rule,
recompute content completion, and commit. -/
def clearApply (db : DB) (uid : Nat) (now : ℚ) (stage : StageRec)
    (content : ContentRec) (progress : Option UserStageProgress)
    (best_time_sec : Option Int) : StageClearResponse × DB :=
  let db1 := match progress with
    | none =>
        let row : UserStageProgress :=
          { user_id := uid, stage_id := stage.id, status := "cleared",
            unlock_at := some now, cleared_at := some now, nfc_count := 0,
            best_time_sec := none }
        { db with stage_progress := db.stage_progress ++ [row] }
    | some _ =>
        let f := fun (p : UserStageProgress) =>
          if p.user_id == uid && p.stage_id == stage.id then
            { p with status := "cleared", cleared_at := some now } else p
        { db with stage_progress := db.stage_progress.map f }
  let g := fun (p : UserStageProgress) =>
    if p.user_id == uid && p.stage_id == stage.id then applyBestTime p best_time_sec else p
  let db2 := { db1 with stage_progress := db1.stage_progress.map g }
  let all_stage_ids := (topLevelStages db.stages stage.content_id).map (fun s => s.id)
  let cleared_rows := db2.stage_progress.filter (fun p =>
    p.user_id == uid && (all_stage_ids.contains p.stage_id) &&
      !(p.stage_id == stage.id) && p.status == "cleared")
  let cleared_stage_ids := ((cleared_rows.map (fun p => p.stage_id)).dedup).insert stage.id
  if cleared_stage_ids.length == all_stage_ids.length then
    let f := fun (p : UserContentProgress) =>
      if p.user_id == uid && p.content_id == stage.content_id then
        { p with status := "cleared", cleared_at := some now } else p
    let db3 := { db2 with content_progress := db2.content_progress.map f }
    let next_content_id :=
      if content.has_next_content then content.next_content_id else none
    ({ cleared := true, rewards := [], content_cleared := true,
       next_content := next_content_id }, db3)
  else
    ({ cleared := true, rewards := [], content_cleared := false,
       next_content := none }, db2)

/-- `POST /api/v1/progress/stages/{stage_id}/clear` (`clear_stage` in
`app/api/v1/progress.py`).  An already-cleared stage returns the
previously recorded ledger rewards and changes nothing; otherwise the
progress row is overwritten/created as `cleared` (the locked guard was
removed) and content completion is recomputed by comparing the set
`{cleared top-level stages other than this one} ∪ {this stage}`
against the list of all top-level stages. -/
def clear_stage (db : DB) (uid : Nat) (now : ℚ) (stageId : Nat)
    (best_time_sec : Option Int) : Except HttpErr (StageClearResponse × DB) :=
  match db.stages.find? (fun s => s.id == stageId) with
  | none => .error ⟨404, "Stage not found"⟩
  | some stage =>
    match db.contents.find? (fun c => c.id == stage.content_id) with
    | none => .error ⟨404, "Content not found"⟩
    | some content =>
      let progress := db.stage_progress.find?
        (fun p => p.user_id == uid && p.stage_id == stageId)
      match progress with
      | some p =>
          if p.status == "cleared" then
            let existing := db.ledger.filter
              (fun e => e.user_id == uid && e.stage_id == some stageId)
            .ok ({ cleared := true,
                   rewards := existing.map (fun e => ⟨e.coin_delta, e.note⟩),
                   content_cleared := false, next_content := none }, db)
          else .ok (clearApply db uid now stage content progress best_time_sec)
      | none => .ok (clearApply db uid now stage content progress best_time_sec)

/-- Schema `ContentJoinResponse`. -/
structure ContentJoinResponse where
  joined : Bool := true
  status : String := "in_progress"
deriving DecidableEq, Repr

/-- The active-window check of `join_content`: unless the content is
always-on, reject when `start_at` is in the future or `end_at` is in
the past. -/
def joinWindowErr (content : ContentRec) (now : ℚ) : Option HttpErr :=
  if content.is_always_on then none
  else
    match content.start_at with
    | some s =>
        if decide (now < s) then some ⟨400, "Content has not started yet"⟩
        else
          match content.end_at with
          | some e => if decide (e < now) then some ⟨400, "Content has ended"⟩ else none
          | none => none
    | none =>
        match content.end_at with
        | some e => if decide (e < now) then some ⟨400, "Content has ended"⟩ else none
        | none => none

/-- `POST /api/v1/contents/{content_id}/join` (`join_content` in
`app/api/v1/contents.py`). -/
def join_content (db : DB) (uid : Nat) (now : ℚ) (contentId : Nat) :
    Except HttpErr (ContentJoinResponse × DB) :=
  match db.contents.find? (fun c => c.id == contentId) with
  | none => .error ⟨404, "Content not found"⟩
  | some content =>
    if !content.is_open then .error ⟨400, "Content is not open"⟩
    else
      match joinWindowErr content now with
      | some e => .error e
      | none =>
        match db.content_progress.find?
            (fun p => p.user_id == uid && p.content_id == contentId) with
        | some progress => .ok ({ joined := true, status := progress.status }, db)
        | none =>
            let row : UserContentProgress :=
              { user_id := uid, content_id := contentId, status := "in_progress",
                joined_at := some now, cleared_at := none }
            .ok ({ joined := true, status := "in_progress" },
                 { db with content_progress := db.content_progress ++ [row] })

/-- `f"Not enough points. Required: {...}, Available: {...}"`. -/
def notEnoughPointsMsg (required available : Int) : String :=
  s!"Not enough points. Required: {required}, Available: {available}"

/-- `f"포인트가 부족합니다. (보유: {...}P, 필요: {...}P)"`. -/
def insufficientPointsMsg (owned needed : Int) : String :=
  s!"포인트가 부족합니다. (보유: {owned}P, 필요: {needed}P)"

/-- Schema `RewardConsumeResponse` (the fields asserted here). -/
structure RewardConsumeResponse where
  success : Bool := true
  reward_id : Nat
  points_deducted : Int
  remaining_points : Int
deriving DecidableEq, Repr

/-- `POST /api/v1/progress/rewards/consume` (`consume_reward` in
`app/api/v1/progress.py`): stock check, ledger-sum balance check,
stock decrement, negative ledger append, all in one transaction
(`async with db.begin()` — any `HTTPException` rolls everything
back).  Step 7 attempts the cache write as
`user_profile = user_to_update.profile or {}` followed by an
in-place `points` update and reassignment of `user_profile`: when the
profile dict is truthy (non-empty) this aliases the loaded dict and
reassigns the identical object, so SQLAlchemy's flush compares it
equal to its recorded value and emits no UPDATE — the cache write is
silently dropped and only a falsy (NULL or empty) profile is actually
persisted. -/
def consume_reward (db : DB) (uid : Nat) (rewardId : Nat) :
    Except HttpErr (RewardConsumeResponse × DB) :=
  match db.store_rewards.find? (fun r => r.id == rewardId) with
  | none => .error ⟨404, "Reward item not found"⟩
  | some reward_item =>
    if !reward_item.is_active then .error ⟨400, "Reward item is not active"⟩
    else
      let stockErr : Option HttpErr :=
        match reward_item.stock_qty with
        | some q => if q ≤ 0 then some ⟨400, "Item out of stock"⟩ else none
        | none => none
      match stockErr with
      | some e => .error e
      | none =>
        let current_points := ledgerSum db.ledger uid
        if current_points < reward_item.price_coin then
          .error ⟨400, notEnoughPointsMsg reward_item.price_coin current_points⟩
        else
          let db1 := match reward_item.stock_qty with
            | some q =>
                let f := fun (r : StoreReward) =>
                  if r.id == rewardId then { r with stock_qty := some (q - 1) } else r
                { db with store_rewards := db.store_rewards.map f }
            | none => db
          let db2 := db1.addLedger
            { user_id := uid, coin_delta := -reward_item.price_coin,
              note := some s!"Consumed: {reward_item.product_name}",
              store_id := some reward_item.store_id,
              store_reward_id := some reward_item.id }
          let db3 := match db2.users.find? (fun u => u.id == uid) with
            | some u =>
                if profileFalsy u.profile then
                  db2.setUserPoints uid (current_points - reward_item.price_coin)
                else db2
            | none => db2
          .ok ({ success := true, reward_id := reward_item.id,
                 points_deducted := reward_item.price_coin,
                 remaining_points := current_points - reward_item.price_coin }, db3)

/-- Schema `RewardRedeemResponse` (the fields asserted here). -/
structure RewardRedeemResponse where
  success : Bool := true
  message : String := "상품 교환이 완료되었습니다."
  remaining_points : Int
deriving DecidableEq, Repr

/-- `POST /api/v1/rewards/redeem` (`redeem_reward` in
`app/api/v1/rewards.py`): note that the stock decrement happens
*before* the balance check; the `except` branch rolls the session
back, so a 400 for insufficient points undoes the decrement. -/
def redeem_reward (db : DB) (uid : Nat) (rewardId : Nat) :
    Except HttpErr (RewardRedeemResponse × DB) :=
  match db.store_rewards.find? (fun r => r.id == rewardId) with
  | none => .error ⟨404, "상품을 찾을 수 없습니다."⟩
  | some reward =>
    if !reward.is_active then .error ⟨400, "현재 교환 불가능한 상품입니다."⟩
    else
      let stockRes : Except HttpErr DB :=
        match reward.stock_qty with
        | some q =>
            if q ≤ 0 then .error ⟨400, "상품 재고가 소진되었습니다."⟩
            else
              let f := fun (r : StoreReward) =>
                if r.id == rewardId then { r with stock_qty := some (q - 1) } else r
              .ok { db with store_rewards := db.store_rewards.map f }
        | none => .ok db
      match stockRes with
      | .error e => .error e
      | .ok db1 =>
        match db1.users.find? (fun u => u.id == uid) with
        | none => .error ⟨404, "사용자 정보를 찾을 수 없습니다."⟩
        | some u =>
          let user_points := cachedPoints u
          if user_points < reward.price_coin then
            .error ⟨400, insufficientPointsMsg user_points reward.price_coin⟩
          else
            let new_points := user_points - reward.price_coin
            let db2 := db1.setUserPoints uid new_points
            let db3 := db2.addLedger
              { user_id := uid, coin_delta := -|reward.price_coin|,
                note := some s!"상품 교환: {reward.product_name}",
                store_reward_id := some reward.id }
            .ok ({ remaining_points := new_points }, db3)

/-- `POST /api/v1/admin/users/{user_id}/adjust-points`
(`adjust_user_points` in `app/api/admin/users.py`): append a signed
ledger entry and attempt the cache write
`user.profile['points'] = new_points` in the same commit.  That write
is an in-place mutation of a plain JSONB dict: only when the profile
was NULL does the preceding `user.profile = {}` assignment fire a
change event (and the flush then persists the mutated fresh dict);
for any non-NULL profile no attribute-set event fires (`db.add(user)`
marks nothing dirty), SQLAlchemy emits no UPDATE for `users`, and the
cache stays stale while the ledger row commits. -/
def adjust_user_points (db : DB) (userId : Nat) (coin_delta : Int)
    (note : String) : Except HttpErr (LedgerEntry × DB) :=
  match db.users.find? (fun u => u.id == userId) with
  | none => .error ⟨404, "User not found"⟩
  | some user =>
    let entry : LedgerEntry :=
      { user_id := userId, coin_delta := coin_delta, note := some note }
    let db1 := db.addLedger entry
    let new_points := cachedPoints user + coin_delta
    let db2 := match user.profile with
      | none => db1.setUserPoints userId new_points
      | some _ => db1
    .ok (entry, db2)

/-- `if not user.email` — NULL and the empty string are both falsy. -/
def emailMissing : Option String → Bool
  | none => true
  | some s => s == ""

/-- `POST /api/v1/auth/password/forgot` (`request_password_reset` in
`app/api/v1/auth.py`).  The random temporary password, the bcrypt
hash and the mail-provider outcome are outside the repository and are
passed as oracles (`tempHash` is the stored `get_password_hash`
result; `emailOk` is whether `send_temp_password_email` succeeded).
The response is always HTTP 200 with a `message` field; the commit
happens before the email is sent, so an email failure keeps the new
hash but reports an error message. -/
def request_password_reset (db : DB) (idOrEmail : String)
    (tempHash : String) (emailOk : Bool) : String × DB :=
  match db.users.find?
      (fun u => u.login_id == idOrEmail || u.email == some idOrEmail) with
  | none => ("존재하지않는 아이디 또는 이메일입니다.", db)
  | some user =>
    if emailMissing user.email then
      ("계정에 이메일이 등록되어 있지 않아 전송할 수 없습니다.", db)
    else
      match db.auth_identities.find?
          (fun a => a.user_id == user.id && a.provider == "local") with
      | none => ("소셜 로그인 계정은 비밀번호를 초기화할 수 없습니다.", db)
      | some _ =>
        let f := fun (a : AuthIdentity) =>
          if a.user_id == user.id && a.provider == "local" then
            { a with password_hash := some tempHash } else a
        let db1 := { db with auth_identities := db.auth_identities.map f }
        if emailOk then ("임시비밀번호를 전송하였습니다", db1)
        else ("이메일 전송 중 오류가 발생했습니다.", db1)

/-- The mutating operations named by the balance-cache invariant:
NFC scan reward grant, location-verification reward grant, reward
redemption (`consume_reward`), and admin point adjustment. -/
inductive Op where
  | scan (uid : Nat) (now : ℚ) (req : NFCScanRequest)
  | verifyLoc (uid : Nat) (hintId : Nat) (latitude longitude : ℚ)
  | consume (uid : Nat) (rewardId : Nat)
  | adjust (userId : Nat) (coin_delta : Int) (note : String)

/-- The committed state after running one mutating operation
(`gcDist` is the PostGIS distance oracle used by `verifyLoc`). -/
def applyOp (gcDist : ℚ × ℚ → ℚ × ℚ → ℚ) (db : DB) : Op → DB
  | .scan uid now req => finalDB db (scan_nfc db uid now req)
  | .verifyLoc uid hintId lat lng => finalDB db (verify_location gcDist db uid hintId lat lng)
  | .consume uid rewardId => finalDB db (consume_reward db uid rewardId)
  | .adjust userId delta note => finalDB db (adjust_user_points db userId delta note)

/-- The balance-cache consistency invariant: every user's cached
`profile.points` equals the sum of their ledger deltas. -/
def balanceInv (db : DB) : Prop :=
  ∀ u ∈ db.users, cachedPoints u = ledgerSum db.ledger u.id

instance (db : DB) : Decidable (balanceInv db) := by
  unfold balanceInv
  exact List.decidableBAll _ db.users

/-- The `reason` field of a scan outcome (none on an exception). -/
def scanReason (r : Except HttpErr (NFCScanResponse × DB)) : Option String :=
  match r with
  | .ok (resp, _) => resp.reason
  | .error _ => none

/-- The `allowed` field of a scan outcome (false on an exception). -/
def scanAllowed (r : Except HttpErr (NFCScanResponse × DB)) : Bool :=
  match r with
  | .ok (resp, _) => resp.allowed
  | .error _ => false

/-- The `allowed` field of a location-verification outcome. -/
def verifyAllowed (r : Except HttpErr (LocationVerifyResponse × DB)) : Bool :=
  match r with
  | .ok (resp, _) => resp.allowed
  | .error _ => false

/-- The `status` field of a join outcome. -/
def joinStatus (r : Except HttpErr (ContentJoinResponse × DB)) : Option String :=
  match r with
  | .ok (resp, _) => some resp.status
  | .error _ => none

/-- An empty database, the base of the concrete test states. -/
def emptyDB : DB :=
  { users := [], auth_identities := [], tags := [], hints := [], stages := [],
    contents := [], scan_logs := [], ledger := [], stage_progress := [],
    content_progress := [], store_rewards := [] }

/-- Content-clear failing input: content 10 has top-level stages 1 and 2
and the sub-stage 3 (parent 1); user 1 has cleared stage 1 only and is
`in_progress` on the content. -/
def dbC3 : DB :=
  { emptyDB with
    users := [⟨1, "alice", some "a@x.com", some ⟨some 0, false⟩⟩],
    stages := [⟨1, 10, none, none⟩, ⟨2, 10, none, none⟩, ⟨3, 10, some 1, none⟩],
    contents := [⟨10, true, true, none, none, false, none⟩],
    stage_progress := [⟨1, 1, "cleared", none, some 5, 0, none⟩],
    content_progress := [⟨1, 10, "in_progress", some 0, none⟩] }

/-- The state committed by clearing the sub-stage 3 on `dbC3`. -/
def dbC3post : DB :=
  finalDB dbC3 (clear_stage dbC3 1 100 3 none)

/-- Usage-limit/cooldown interaction input: tag 7 has
`cooldown_sec = 100` and `use_limit = 1`, and user 1 already has one
allowed scan of it at time 0. -/
def dbC5 : DB :=
  { emptyDB with
    users := [⟨1, "alice", some "a@x.com", some ⟨some 10, false⟩⟩],
    tags := [⟨7, "TAG1", "tagA", true, 100, some 1, 10⟩],
    scan_logs := [⟨1, some 7, 0, true, none, none⟩],
    ledger := [⟨1, 10, some "NFC scan: tagA", none, none, none, none⟩] }

/-- Password-reset input with an existing local account. -/
def dbC8a : DB :=
  { emptyDB with
    users := [⟨1, "alice", some "a@x.com", some ⟨some 0, false⟩⟩],
    auth_identities := [⟨1, "local", some "oldhash"⟩] }

/-- Password-reset input with no matching account. -/
def dbC8b : DB := emptyDB

/-- Join input: always-on open content 10, user 1 has no progress row. -/
def dbC9 : DB :=
  { emptyDB with
    users := [⟨1, "alice", some "a@x.com", some ⟨some 0, false⟩⟩],
    contents := [⟨10, true, true, none, none, false, none⟩] }

/-- C1 failing input: user 1 has the non-empty JSONB profile
`{'points': 5}` matching the one ledger row (sum 5), and a 3-coin
reward is available to redeem. -/
def dbC1 : DB :=
  { emptyDB with
    users := [⟨1, "alice", some "a@x.com", some ⟨some 5, false⟩⟩],
    ledger := [⟨1, 5, some "seed", none, none, none, none⟩],
    store_rewards := [⟨20, 30, "cola", 3, some 3, true⟩] }

/-- C2 witness input: user 1 has balance 10 (cache and ledger agree),
reward 20 costs 50 with stock 3. -/
def dbC2w : DB :=
  { emptyDB with
    users := [⟨1, "alice", some "a@x.com", some ⟨some 10, false⟩⟩],
    ledger := [⟨1, 10, some "seed", none, none, none, none⟩],
    store_rewards := [⟨20, 30, "cola", 50, some 3, true⟩] }

/-- C4 witness input: tag 7 with `cooldown_sec = 100`, no usage limit,
user 1 has an allowed scan at time 0. -/
def dbC4w : DB :=
  { emptyDB with
    users := [⟨1, "alice", some "a@x.com", some ⟨some 10, false⟩⟩],
    tags := [⟨7, "TAG1", "tagA", true, 100, none, 10⟩],
    scan_logs := [⟨1, some 7, 0, true, none, none⟩],
    ledger := [⟨1, 10, some "NFC scan: tagA", none, none, none, none⟩] }

/-- C6 witness input: stage 1 of content 10 already cleared by user 1,
with one recorded stage reward in the ledger. -/
def dbC6w : DB :=
  { emptyDB with
    users := [⟨1, "alice", some "a@x.com", some ⟨some 7, false⟩⟩],
    stages := [⟨1, 10, none, none⟩],
    contents := [⟨10, true, true, none, none, false, none⟩],
    stage_progress := [⟨1, 1, "cleared", some 0, some 5, 2, some 60⟩],
    ledger := [⟨1, 7, some "stage reward", none, some 1, none, none⟩] }

/-- C7 witness input: hint 40 in stage 1 with target `(0, 0)` and
`radius_m = 10`, no coin reward. -/
def dbC7w : DB :=
  { emptyDB with
    users := [⟨1, "alice", some "a@x.com", some ⟨some 0, false⟩⟩],
    hints := [⟨40, 1, 1, 0, none, some (0, 0), some 10⟩],
    stages := [⟨1, 10, none, none⟩] }

/-- C10 witness input: active tag 7 with `point_reward = 10`, no bound
hint, no prior scans. -/
def dbC10w : DB :=
  { emptyDB with
    users := [⟨1, "alice", some "a@x.com", some ⟨some 0, false⟩⟩],
    tags := [⟨7, "TAG1", "tagA", true, 100, some 3, 10⟩] }

/-- Decidable equality of request outcomes, for concrete evaluation. -/
def exceptDecEq {e a : Type} [DecidableEq e] [DecidableEq a] :
    DecidableEq (Except e a) := fun x y =>
  match x, y with
  | .error u, .error v =>
      if h : u = v then .isTrue (by rw [h])
      else .isFalse (by intro hc; cases hc; exact h rfl)
  | .ok u, .ok v =>
      if h : u = v then .isTrue (by rw [h])
      else .isFalse (by intro hc; cases hc; exact h rfl)
  | .error _, .ok _ => .isFalse (by intro hc; cases hc)
  | .ok _, .error _ => .isFalse (by intro hc; cases hc)

instance {e a : Type} [DecidableEq e] [DecidableEq a] : DecidableEq (Except e a) :=
  exceptDecEq

lemma ledgerSum_append (l : List LedgerEntry) (e : LedgerEntry) (x : Nat) :
    ledgerSum (l ++ [e]) x
      = ledgerSum l x + (if e.user_id = x then e.coin_delta else 0) := by
  simp only [ledgerSum, List.filter_append, List.map_append, List.sum_append]
  by_cases h : e.user_id = x
  · have hb : (e.user_id == x) = true := by simpa using h
    simp [List.filter, hb, h]
  · have hb : (e.user_id == x) = false := by simpa using h
    simp [List.filter, hb, h]

lemma addLog_users (db : DB) (l : ScanLog) : (db.addLog l).users = db.users := rfl

lemma addLog_ledger (db : DB) (l : ScanLog) : (db.addLog l).ledger = db.ledger := rfl

lemma addLedger_users (db : DB) (e : LedgerEntry) : (db.addLedger e).users = db.users := rfl

lemma addLedger_ledger (db : DB) (e : LedgerEntry) :
    (db.addLedger e).ledger = db.ledger ++ [e] := rfl

lemma setUserPoints_ledger (db : DB) (uid : Nat) (pts : Int) :
    (db.setUserPoints uid pts).ledger = db.ledger := rfl

lemma bump_users (db : DB) (uid sid : Nat) :
    (db.bumpStageProgress uid sid).users = db.users := by
  unfold DB.bumpStageProgress
  split <;> rfl

lemma bump_ledger (db : DB) (uid sid : Nat) :
    (db.bumpStageProgress uid sid).ledger = db.ledger := by
  unfold DB.bumpStageProgress
  split <;> rfl

lemma bump_scan_logs (db : DB) (uid sid : Nat) :
    (db.bumpStageProgress uid sid).scan_logs = db.scan_logs := by
  unfold DB.bumpStageProgress
  split <;> rfl

lemma bump_tags (db : DB) (uid sid : Nat) :
    (db.bumpStageProgress uid sid).tags = db.tags := by
  unfold DB.bumpStageProgress
  split <;> rfl

/-- The invariant only reads `users` and `ledger`. -/
lemma balanceInv_congr (db db2 : DB) (hu : db2.users = db.users)
    (hl : db2.ledger = db.ledger) (h : balanceInv db) : balanceInv db2 := by
  intro u hu2
  rw [hu] at hu2
  rw [hl]
  exact h u hu2

/-- Appending a ledger entry and rewriting the user's cache from the
cached value read in the same transaction preserves the invariant. -/
lemma balanceInv_grant (db : DB) (uid : Nat) (u0 : UserRec) (e : LedgerEntry)
    (hfind : db.users.find? (fun u => u.id == uid) = some u0)
    (heu : e.user_id = uid) (h : balanceInv db) :
    balanceInv ((db.addLedger e).setUserPoints uid (cachedPoints u0 + e.coin_delta)) := by
  have hmem : u0 ∈ db.users := List.mem_of_find?_eq_some hfind
  have hid : u0.id = uid := by
    have := List.find?_some hfind
    simpa using this
  intro u hu
  simp only [DB.setUserPoints, DB.addLedger, List.mem_map] at hu
  obtain ⟨u1, hu1, rfl⟩ := hu
  by_cases hcase : u1.id = uid
  · have hbeq : (u1.id == uid) = true := by simpa using hcase
    simp only [hbeq, if_true]
    show cachedPoints u0 + e.coin_delta = ledgerSum (db.ledger ++ [e]) u1.id
    rw [ledgerSum_append, hcase, heu, if_pos rfl]
    have hbal : cachedPoints u0 = ledgerSum db.ledger u0.id := h u0 hmem
    rw [hbal, hid]
  · have hbeq : (u1.id == uid) = false := by simpa using hcase
    simp only [hbeq, Bool.false_eq_true, if_false]
    show cachedPoints u1 = ledgerSum (db.ledger ++ [e]) u1.id
    rw [ledgerSum_append, heu, if_neg (fun hx => hcase hx.symm), add_zero]
    exact h u1 hu1

/-- Appending a ledger entry and rewriting the user's cache from the
ledger sum read in the same transaction preserves the invariant. -/
lemma balanceInv_resync (db : DB) (uid : Nat) (e : LedgerEntry) (pts : Int)
    (heu : e.user_id = uid)
    (hpts : pts = ledgerSum db.ledger uid + e.coin_delta)
    (h : balanceInv db) :
    balanceInv ((db.addLedger e).setUserPoints uid pts) := by
  subst hpts
  intro u hu
  simp only [DB.setUserPoints, DB.addLedger, List.mem_map] at hu
  obtain ⟨u1, hu1, rfl⟩ := hu
  by_cases hcase : u1.id = uid
  · have hbeq : (u1.id == uid) = true := by simpa using hcase
    simp only [hbeq, if_true]
    show ledgerSum db.ledger uid + e.coin_delta = ledgerSum (db.ledger ++ [e]) u1.id
    rw [ledgerSum_append, hcase, heu, if_pos rfl]
  · have hbeq : (u1.id == uid) = false := by simpa using hcase
    simp only [hbeq, Bool.false_eq_true, if_false]
    show cachedPoints u1 = ledgerSum (db.ledger ++ [e]) u1.id
    rw [ledgerSum_append, heu, if_neg (fun hx => hcase hx.symm), add_zero]
    exact h u1 hu1

/-- Appending a ledger entry for an id that matches no user row
preserves the invariant (vacuously for that id). -/
lemma balanceInv_append_nouser (db : DB) (e : LedgerEntry)
    (hnone : db.users.find? (fun u => u.id == e.user_id) = none)
    (h : balanceInv db) : balanceInv (db.addLedger e) := by
  intro u hu
  simp only [DB.addLedger] at hu
  have hne : u.id ≠ e.user_id := by
    intro hx
    have := List.find?_eq_none.mp hnone u hu
    simp [hx] at this
  show cachedPoints u = ledgerSum (db.ledger ++ [e]) u.id
  rw [ledgerSum_append, if_neg (fun hx => hne hx.symm), add_zero]
  exact h u hu

lemma inv_scanSuccess (db : DB) (uid : Nat) (now : ℚ) (req : NFCScanRequest)
    (tag : NFCTag) (h : balanceInv db) :
    balanceInv (finalDB db (scanSuccess db uid now req tag)) := by
  by_cases hr : (0 : Int) < tag.point_reward
  · simp only [scanSuccess, addLedger_users, addLog_users, hr, if_true]
    cases hf : db.users.find? (fun u => u.id == uid) with
    | none => simpa [finalDB] using h
    | some u =>
        have hinv1 : balanceInv (DB.addLog db
            { user_id := uid, nfc_id := some tag.id, scanned_at := now,
              allowed := true, reason := none,
              hint_id := (resolveHint db req tag).2 }) :=
          balanceInv_congr db _ rfl rfl h
        have hgrant := balanceInv_grant (DB.addLog db
            { user_id := uid, nfc_id := some tag.id, scanned_at := now,
              allowed := true, reason := none,
              hint_id := (resolveHint db req tag).2 }) uid u
            { user_id := uid, coin_delta := tag.point_reward,
              note := some s!"NFC scan: {tag.tag_name}" } hf rfl hinv1
        cases hh : (resolveHint db req tag).1 with
        | none => simpa [finalDB, hf, hh] using hgrant
        | some hs =>
            simp only [finalDB, hf, hh]
            exact balanceInv_congr _ _ (bump_users _ _ _) (bump_ledger _ _ _) hgrant
  · simp only [scanSuccess, hr, if_false]
    cases hh : (resolveHint db req tag).1 with
    | none =>
        simp only [finalDB, hh]
        exact balanceInv_congr db _ rfl rfl h
    | some hs =>
        simp only [finalDB, hh]
        have hinv1 : balanceInv (DB.addLog db
            { user_id := uid, nfc_id := some tag.id, scanned_at := now,
              allowed := true, reason := none,
              hint_id := (resolveHint db req tag).2 }) :=
          balanceInv_congr db _ rfl rfl h
        exact balanceInv_congr _ _ (bump_users _ _ _) (bump_ledger _ _ _) hinv1

lemma inv_scanUsage (db : DB) (uid : Nat) (now : ℚ) (req : NFCScanRequest)
    (tag : NFCTag) (h : balanceInv db) :
    balanceInv (finalDB db (scanUsage db uid now req tag)) := by
  cases hl : tag.use_limit with
  | none =>
      simp only [scanUsage, hl]
      exact inv_scanSuccess db uid now req tag h
  | some limit =>
      simp only [scanUsage, hl]
      by_cases hc : limit ≤ (allowedCount db.scan_logs uid tag.id : ℤ)
      · simp only [hc, if_true, finalDB]
        exact balanceInv_congr db _ rfl rfl h
      · simp only [hc, if_false]
        exact inv_scanSuccess db uid now req tag h

lemma inv_scanCooldown (db : DB) (uid : Nat) (now : ℚ) (req : NFCScanRequest)
    (tag : NFCTag) (h : balanceInv db) :
    balanceInv (finalDB db (scanCooldown db uid now req tag)) := by
  by_cases hcd : (0 : Int) < tag.cooldown_sec
  · simp only [scanCooldown, hcd, if_true]
    cases hr : latestScan (cooldownWindow db.scan_logs uid tag.id (now - tag.cooldown_sec)) with
    | none => exact inv_scanUsage db uid now req tag h
    | some recent =>
        simp only [finalDB]
        exact balanceInv_congr db _ rfl rfl h
  · simp only [scanCooldown, hcd, if_false]
    exact inv_scanUsage db uid now req tag h

lemma inv_scan (db : DB) (uid : Nat) (now : ℚ) (req : NFCScanRequest)
    (h : balanceInv db) : balanceInv (scanFinalDB db uid now req) := by
  unfold scanFinalDB
  cases hf : db.tags.find? (fun t => t.udid == req.udid) with
  | none =>
      simp only [scan_nfc, hf, finalDB]
      exact balanceInv_congr db _ rfl rfl h
  | some tag =>
      simp only [scan_nfc, hf]
      by_cases ha : tag.is_active = true
      · simp only [ha, if_true]
        exact inv_scanCooldown db uid now req tag h
      · simp only [ha, if_false, finalDB]
        exact balanceInv_congr db _ rfl rfl h

lemma inv_verify (gcDist : ℚ × ℚ → ℚ × ℚ → ℚ) (db : DB) (uid hintId : Nat)
    (lat lng : ℚ) (h : balanceInv db) :
    balanceInv (finalDB db (verify_location gcDist db uid hintId lat lng)) := by
  cases hf : db.hints.find? (fun x => x.id == hintId) with
  | none => simpa [verify_location, hf, finalDB] using h
  | some hint =>
      simp only [verify_location, hf]
      cases hloc : hint.location with
      | none => simpa [finalDB] using h
      | some loc =>
          cases hrad : hint.radius_m with
          | none => simpa [finalDB] using h
          | some radius =>
              by_cases hz : radius == 0
              · simpa [hz, finalDB] using h
              · simp only [hz, Bool.false_eq_true, if_false]
                by_cases hd : (radius : ℚ) < gcDist loc (lng, lat)
                · simp only [decide_eq_true_eq, hd, if_true, finalDB]
                  exact balanceInv_congr db _ rfl rfl h
                · simp only [decide_eq_true_eq, hd, if_false]
                  by_cases hr : (0 : Int) < hint.reward_coin
                  · simp only [hr, if_true, addLedger_users]
                    cases hu : db.users.find? (fun u => u.id == uid) with
                    | none => simpa [finalDB] using h
                    | some u =>
                        simp only [finalDB]
                        have hgrant := balanceInv_grant db uid u
                          { user_id := uid, coin_delta := hint.reward_coin,
                            note := some s!"Location verified: Hint {hint.id}" } hu rfl h
                        exact balanceInv_congr _ _ (bump_users _ _ _) (bump_ledger _ _ _) hgrant
                  · simp only [hr, if_false, finalDB]
                    exact balanceInv_congr _ _ (bump_users _ _ _) (bump_ledger _ _ _) h

lemma cooldownWindow_nil (logs : List ScanLog) (uid tagId : Nat) (threshold : ℚ)
    (h : ∀ l ∈ logs, l.user_id = uid → l.nfc_id = some tagId → l.allowed = true →
        l.scanned_at ≤ threshold) :
    cooldownWindow logs uid tagId threshold = [] := by
  unfold cooldownWindow
  rw [List.filter_eq_nil_iff]
  intro l hl hcontra
  simp only [Bool.and_eq_true, beq_iff_eq, decide_eq_true_eq] at hcontra
  obtain ⟨⟨⟨h1, h2⟩, h3⟩, h4⟩ := hcontra
  exact absurd (h l hl h1 h2 h3) (not_le.mpr h4)

/-- C1: Balance-cache consistency (code-bug exhibit) — on `dbC1`
(user 1 with the non-empty JSONB profile `{'points': 5}` and ledger
sum 5) the invariant holds, but an admin point adjustment of +3
commits the ledger row (sum 8) while the in-place JSONB cache write
is dropped at flush, leaving `profile['points']` at 5; likewise a
`consume_reward` of the 3-coin reward commits the -3 ledger row
(sum 2) while the same-object profile reassignment is dropped and the
cache again stays 5.  The cached balance and the ledger sum diverge
after both operations, violating the claimed invariant. -/
theorem c1_balance_cache_bug :
    balanceInv dbC1 ∧
    ¬ balanceInv (applyOp (fun _ _ => 0) dbC1 (Op.adjust 1 3 "bonus")) ∧
    ledgerSum (applyOp (fun _ _ => 0) dbC1 (Op.adjust 1 3 "bonus")).ledger 1 = 8 ∧
    (applyOp (fun _ _ => 0) dbC1 (Op.adjust 1 3 "bonus")).users.map cachedPoints
      = [5] ∧
    ¬ balanceInv (applyOp (fun _ _ => 0) dbC1 (Op.consume 1 20)) ∧
    ledgerSum (applyOp (fun _ _ => 0) dbC1 (Op.consume 1 20)).ledger 1 = 2 ∧
    (applyOp (fun _ _ => 0) dbC1 (Op.consume 1 20)).users.map cachedPoints
      = [5] := by
  decide

/-- C2: Insufficient-funds redemption is denied and atomic — for a
redeemable reward (found, active, in stock), a user whose balance is
below `price_coin` gets HTTP 400 with the insufficiency message and
the committed state is exactly the initial state (the stock decrement
that `redeem_reward` performs before its balance check is rolled
back; no ledger row persists).  Stated for both redemption endpoints:
`redeem_reward` (cached balance) and `consume_reward` (ledger-sum
balance). -/
theorem c2_insufficient_funds_redemption (db : DB) (uid rid : Nat)
    (reward : StoreReward)
    (hfind : db.store_rewards.find? (fun r => r.id == rid) = some reward)
    (hact : reward.is_active = true)
    (hstock : reward.stock_qty.all (fun q => decide (0 < q)) = true) :
    (∀ u0, db.users.find? (fun u => u.id == uid) = some u0 →
        cachedPoints u0 < reward.price_coin →
        redeem_reward db uid rid =
          .error ⟨400, insufficientPointsMsg (cachedPoints u0) reward.price_coin⟩ ∧
        finalDB db (redeem_reward db uid rid) = db) ∧
    (ledgerSum db.ledger uid < reward.price_coin →
        consume_reward db uid rid =
          .error ⟨400, notEnoughPointsMsg reward.price_coin (ledgerSum db.ledger uid)⟩ ∧
        finalDB db (consume_reward db uid rid) = db) := by
  constructor
  · intro u0 hu0 hlt
    have hred : redeem_reward db uid rid =
        .error ⟨400, insufficientPointsMsg (cachedPoints u0) reward.price_coin⟩ := by
      simp only [redeem_reward, hfind, hact, Bool.not_true, Bool.false_eq_true, if_false]
      cases hs : reward.stock_qty with
      | some q =>
          have hq : 0 < q := by simpa [hs] using hstock
          have hq2 : ¬ q ≤ 0 := by omega
          simp only [hq2, if_false, hu0, hlt, if_true]
      | none =>
          simp only [hu0, hlt, if_true]
    exact ⟨hred, by rw [hred]; rfl⟩
  · intro hlt
    have hcon : consume_reward db uid rid =
        .error ⟨400, notEnoughPointsMsg reward.price_coin (ledgerSum db.ledger uid)⟩ := by
      simp only [consume_reward, hfind, hact, Bool.not_true, Bool.false_eq_true, if_false]
      cases hs : reward.stock_qty with
      | some q =>
          have hq : 0 < q := by simpa [hs] using hstock
          have hq2 : ¬ q ≤ 0 := by omega
          simp only [hq2, if_false, hlt, if_true]
      | none =>
          simp only [hlt, if_true]
    exact ⟨hcon, by rw [hcon]; rfl⟩

theorem c2_insufficient_funds_redemption_witness :
    redeem_reward dbC2w 1 20 = .error ⟨400, insufficientPointsMsg 10 50⟩ ∧
    consume_reward dbC2w 1 20 = .error ⟨400, notEnoughPointsMsg 50 10⟩ := by
  have h := c2_insufficient_funds_redemption dbC2w 1 20
    ⟨20, 30, "cola", 50, some 3, true⟩ (by decide) (by decide) (by decide)
  exact ⟨((h.1 ⟨1, "alice", some "a@x.com", some ⟨some 10, false⟩⟩ (by decide) (by decide)).1).trans
           (by decide),
         ((h.2 (by decide)).1).trans (by decide)⟩

lemma addLog_tags (db : DB) (l : ScanLog) : (db.addLog l).tags = db.tags := rfl

lemma addLedger_tags (db : DB) (e : LedgerEntry) : (db.addLedger e).tags = db.tags := rfl

lemma setUserPoints_tags (db : DB) (uid : Nat) (pts : Int) :
    (db.setUserPoints uid pts).tags = db.tags := rfl

lemma addLog_scan_logs (db : DB) (l : ScanLog) :
    (db.addLog l).scan_logs = db.scan_logs ++ [l] := rfl

lemma addLedger_scan_logs (db : DB) (e : LedgerEntry) :
    (db.addLedger e).scan_logs = db.scan_logs := rfl

lemma setUserPoints_scan_logs (db : DB) (uid : Nat) (pts : Int) :
    (db.setUserPoints uid pts).scan_logs = db.scan_logs := rfl

lemma allowedCount_append (logs : List ScanLog) (x : ScanLog) (uid tagId : Nat) :
    allowedCount (logs ++ [x]) uid tagId
      = allowedCount logs uid tagId
        + (if (x.user_id == uid && x.nfc_id == some tagId && x.allowed) = true
           then 1 else 0) := by
  unfold allowedCount
  rw [List.filter_append, List.length_append]
  congr 1
  by_cases h : (x.user_id == uid && x.nfc_id == some tagId && x.allowed) = true
  · simp [List.filter_cons, h]
  · simp [List.filter_cons, h]

/-- The committed state of the scan success path: either the
transaction aborted (user row missing during the point grant) and the
state is unchanged, or exactly one allowed scan log was appended and
the tag table is untouched. -/
lemma scanSuccess_state (db : DB) (uid : Nat) (now : ℚ) (req : NFCScanRequest)
    (tag : NFCTag) :
    finalDB db (scanSuccess db uid now req tag) = db ∨
    ((finalDB db (scanSuccess db uid now req tag)).tags = db.tags ∧
     (finalDB db (scanSuccess db uid now req tag)).scan_logs =
       db.scan_logs ++ [{ user_id := uid, nfc_id := some tag.id, scanned_at := now,
                          allowed := true, reason := none,
                          hint_id := (resolveHint db req tag).2 }]) := by
  by_cases hr : (0 : Int) < tag.point_reward
  · simp only [scanSuccess, hr, if_true, addLedger_users, addLog_users]
    cases hf : db.users.find? (fun u => u.id == uid) with
    | none => left; rfl
    | some u =>
        right
        cases hh : (resolveHint db req tag).1 with
        | none => exact ⟨rfl, rfl⟩
        | some hs =>
            refine ⟨?_, ?_⟩
            · simp [finalDB, bump_tags, setUserPoints_tags, addLedger_tags, addLog_tags]
            · simp [finalDB, bump_scan_logs, setUserPoints_scan_logs,
                addLedger_scan_logs, addLog_scan_logs]
  · simp only [scanSuccess, hr, if_false]
    right
    cases hh : (resolveHint db req tag).1 with
    | none => exact ⟨rfl, rfl⟩
    | some hs =>
        refine ⟨?_, ?_⟩
        · simp [finalDB, bump_tags, addLog_tags]
        · simp [finalDB, bump_scan_logs, addLog_scan_logs]

lemma scanUsage_tags (db : DB) (uid : Nat) (now : ℚ) (req : NFCScanRequest)
    (tag : NFCTag) :
    (finalDB db (scanUsage db uid now req tag)).tags = db.tags := by
  have hsucc : (finalDB db (scanSuccess db uid now req tag)).tags = db.tags := by
    rcases scanSuccess_state db uid now req tag with hcase | hcase
    · rw [hcase]
    · exact hcase.1
  cases hl : tag.use_limit with
  | none => simpa only [scanUsage, hl] using hsucc
  | some limit =>
      simp only [scanUsage, hl]
      by_cases hcount : (limit : ℤ) ≤ (allowedCount db.scan_logs uid tag.id : ℤ)
      · simp only [hcount, if_true]
        rfl
      · simp only [hcount, if_false]
        exact hsucc

lemma scanFinal_tags (db : DB) (uid : Nat) (now : ℚ) (req : NFCScanRequest) :
    (scanFinalDB db uid now req).tags = db.tags := by
  unfold scanFinalDB
  simp only [scan_nfc]
  cases hf : db.tags.find? (fun t => t.udid == req.udid) with
  | none => rfl
  | some tag =>
      by_cases ha : tag.is_active = true
      · simp only [ha, if_true, scanCooldown]
        by_cases hcd : (0 : Int) < tag.cooldown_sec
        · simp only [hcd, if_true]
          cases hr : latestScan
              (cooldownWindow db.scan_logs uid tag.id (now - tag.cooldown_sec)) with
          | some r => rfl
          | none => exact scanUsage_tags db uid now req tag
        · simp only [hcd, if_false]
          exact scanUsage_tags db uid now req tag
      · simp only [ha, Bool.false_eq_true, if_false]
        rfl

lemma allowedCount_scanUsage_le (db : DB) (uid : Nat) (now : ℚ)
    (req : NFCScanRequest) (tag : NFCTag) (N : ℤ)
    (hlim : tag.use_limit = some N)
    (hc : (allowedCount db.scan_logs uid tag.id : ℤ) ≤ N) :
    (allowedCount (finalDB db (scanUsage db uid now req tag)).scan_logs uid tag.id : ℤ)
      ≤ N := by
  simp only [scanUsage, hlim]
  by_cases hcount : (N : ℤ) ≤ (allowedCount db.scan_logs uid tag.id : ℤ)
  · simp only [hcount, if_true, finalDB, addLog_scan_logs]
    rw [allowedCount_append]
    simpa using hc
  · simp only [hcount, if_false]
    rcases scanSuccess_state db uid now req tag with hcase | hcase
    · rw [hcase]
      exact hc
    · rw [hcase.2, allowedCount_append]
      have hlt : (allowedCount db.scan_logs uid tag.id : ℤ) < N := lt_of_not_le hcount
      simp only [beq_self_eq_true, Bool.and_true, Bool.true_and, if_true]
      push_cast
      omega

lemma allowedCount_scan_le (db : DB) (uid : Nat) (now : ℚ) (req : NFCScanRequest)
    (tag : NFCTag) (N : ℤ)
    (hfind : db.tags.find? (fun t => t.udid == req.udid) = some tag)
    (hlim : tag.use_limit = some N)
    (hc : (allowedCount db.scan_logs uid tag.id : ℤ) ≤ N) :
    (allowedCount (scanFinalDB db uid now req).scan_logs uid tag.id : ℤ) ≤ N := by
  unfold scanFinalDB
  simp only [scan_nfc, hfind]
  by_cases ha : tag.is_active = true
  · simp only [ha, if_true, scanCooldown]
    by_cases hcd : (0 : Int) < tag.cooldown_sec
    · simp only [hcd, if_true]
      cases hr : latestScan
          (cooldownWindow db.scan_logs uid tag.id (now - tag.cooldown_sec)) with
      | some r =>
          simp only [finalDB, addLog_scan_logs]
          rw [allowedCount_append]
          simpa using hc
      | none => exact allowedCount_scanUsage_le db uid now req tag N hlim hc
    · simp only [hcd, if_false]
      exact allowedCount_scanUsage_le db uid now req tag N hlim hc
  · simp only [ha, Bool.false_eq_true, if_false, finalDB, addLog_scan_logs]
    rw [allowedCount_append]
    simpa using hc

lemma allowedCount_scan_fold_le (uid : Nat) (udid : String) (tag : NFCTag) (N : ℤ)
    (hlim : tag.use_limit = some N) :
    ∀ (scans : List (ℚ × NFCScanRequest)) (db : DB),
      db.tags.find? (fun t => t.udid == udid) = some tag →
      (∀ p ∈ scans, p.2.udid = udid) →
      (allowedCount db.scan_logs uid tag.id : ℤ) ≤ N →
      (allowedCount
          (scans.foldl (fun d p => scanFinalDB d uid p.1 p.2) db).scan_logs
          uid tag.id : ℤ) ≤ N := by
  intro scans
  induction scans with
  | nil =>
      intro db _ _ hc
      simpa using hc
  | cons p ps ih =>
      intro db hfind hall hc
      simp only [List.foldl_cons]
      refine ih _ ?_ ?_ ?_
      · rw [scanFinal_tags]
        exact hfind
      · intro q hq
        exact hall q (List.mem_cons_of_mem _ hq)
      · have hud := hall p (List.mem_cons_self _ _)
        refine allowedCount_scan_le db uid p.1 p.2 tag N ?_ hlim hc
        rw [hud]
        exact hfind

/-- C3: Content-clear aggregation (code-bug exhibit) — on `dbC3`,
content 10 has the two top-level stages 1 and 2, stage 3 is a
sub-stage of stage 1, and user 1 has cleared only stage 1; after
user 1 clears the sub-stage 3, the code marks the user's content
progress `cleared` even though top-level stage 2 has no progress row
at all, because `clear_stage` inserts the just-cleared (sub-)stage id
into the set it compares against the top-level stage list. -/
theorem c3_content_clear_aggregation_bug :
    (topLevelStages dbC3.stages 10).map (fun s => s.id) = [1, 2] ∧
    dbC3.stages.find? (fun s => s.id == 3) = some ⟨3, 10, some 1, none⟩ ∧
    (dbC3post.content_progress.map (fun p => p.status)) = ["cleared"] ∧
    dbC3post.stage_progress.find? (fun p => p.user_id == 1 && p.stage_id == 2) = none := by
  decide

/-- C4: NFC cooldown correctness — for a found, active tag with
`cooldown_sec > 0`: (a) if the user's most recent allowed scan of the
tag lies inside the cooldown window, the scan is denied, the response
`cooldown_sec` is the integer truncation of
`cooldown_sec - elapsed`, and a denied log row is appended;
(b) if no allowed scan of the tag lies inside the window, the scan is
not denied for cooldown — it proceeds to the usage-limit gate. -/
theorem c4_nfc_cooldown (db : DB) (uid : Nat) (now : ℚ) (req : NFCScanRequest)
    (tag : NFCTag)
    (hfind : db.tags.find? (fun t => t.udid == req.udid) = some tag)
    (hact : tag.is_active = true)
    (hcd : (0 : Int) < tag.cooldown_sec) :
    (∀ recent,
        latestScan (cooldownWindow db.scan_logs uid tag.id (now - tag.cooldown_sec))
          = some recent →
        scan_nfc db uid now req =
          .ok ({ allowed := false,
                 reason := some (cooldownWaitMsg
                   (pyTrunc ((tag.cooldown_sec : ℚ) - (now - recent.scanned_at)))),
                 cooldown_sec :=
                   pyTrunc ((tag.cooldown_sec : ℚ) - (now - recent.scanned_at)) },
               db.addLog
                 { user_id := uid, nfc_id := some tag.id, scanned_at := now,
                   allowed := false,
                   reason := some (cooldownLogMsg
                     (pyTrunc ((tag.cooldown_sec : ℚ) - (now - recent.scanned_at)))),
                   hint_id := none })) ∧
    ((∀ l ∈ db.scan_logs, l.user_id = uid → l.nfc_id = some tag.id →
        l.allowed = true → l.scanned_at ≤ now - tag.cooldown_sec) →
      scan_nfc db uid now req = scanUsage db uid now req tag) := by
  constructor
  · intro recent hrec
    simp only [scan_nfc, hfind, hact, if_true, scanCooldown, hcd, hrec]
  · intro hno
    have hnil := cooldownWindow_nil db.scan_logs uid tag.id (now - tag.cooldown_sec) hno
    simp only [scan_nfc, hfind, hact, if_true, scanCooldown, hcd, hnil, latestScan,
      List.foldl_nil]

unseal Rat.sub in
theorem c4_nfc_cooldown_witness :
    scan_nfc dbC4w 1 50 ⟨"TAG1", none⟩ =
      .ok ({ allowed := false,
             reason := some "Cooldown active. Please wait 50 seconds.",
             cooldown_sec := 50 },
           dbC4w.addLog
             { user_id := 1, nfc_id := some 7, scanned_at := 50, allowed := false,
               reason := some "Cooldown active (50s remaining)", hint_id := none }) ∧
    scan_nfc dbC4w 1 200 ⟨"TAG1", none⟩ = scanUsage dbC4w 1 200 ⟨"TAG1", none⟩
      ⟨7, "TAG1", "tagA", true, 100, none, 10⟩ := by
  have h := c4_nfc_cooldown dbC4w 1 50 ⟨"TAG1", none⟩
    ⟨7, "TAG1", "tagA", true, 100, none, 10⟩ rfl rfl (by decide)
  have h200 := c4_nfc_cooldown dbC4w 1 200 ⟨"TAG1", none⟩
    ⟨7, "TAG1", "tagA", true, 100, none, 10⟩ rfl rfl (by decide)
  refine ⟨(h.1 ⟨1, some 7, 0, true, none, none⟩ (by decide)).trans (by decide),
          h200.2 ?_⟩
  intro l hl h1 h2 h3
  have hl2 : l = ⟨1, some 7, 0, true, none, none⟩ := by
    simpa [dbC4w, emptyDB] using hl
  subst hl2
  show (0:ℚ) ≤ 200 - ((100:ℤ):ℚ)
  norm_num

unseal Rat.sub in
/-- C5 counterexample: on `dbC5`, user 1 has already used up the
tag's `use_limit = 1` (one allowed scan, at time 0), yet the next
scan at time 50 is denied with the *cooldown* reason, not
'Usage limit reached for this NFC tag' — so "every subsequent scan
returns ... reason 'Usage limit reached for this NFC tag'" is false
as stated. -/
theorem c5_usage_limit_counterexample :
    (1 : ℤ) ≤ (allowedCount dbC5.scan_logs 1 7 : ℤ) ∧
    dbC5.tags.find? (fun t => t.udid == "TAG1") =
      some ⟨7, "TAG1", "tagA", true, 100, some 1, 10⟩ ∧
    scanReason (scan_nfc dbC5 1 50 ⟨"TAG1", none⟩) = some (cooldownWaitMsg 50) ∧
    cooldownWaitMsg 50 ≠ "Usage limit reached for this NFC tag" := by
  decide

/-- C5 (amended): for a found, active tag with `use_limit = N`:
(i) any sequence of scans of the tag leaves the user's allowed-scan
count at most N (so at most N scans return allowed=true);
(ii) once the count has reached N, every subsequent scan returns
allowed=false and appends a denied log row;
(iii) the response reason is 'Usage limit reached for this NFC tag'
whenever the cooldown gate passes (no cooldown, or no allowed scan
inside the window) — a scan inside the cooldown window is denied with
the cooldown reason instead. -/
theorem c5_usage_limit (db : DB) (uid : Nat) (udid : String) (tag : NFCTag)
    (N : ℤ)
    (hfind : db.tags.find? (fun t => t.udid == udid) = some tag)
    (hact : tag.is_active = true)
    (hlim : tag.use_limit = some N) :
    (∀ scans : List (ℚ × NFCScanRequest), (∀ p ∈ scans, p.2.udid = udid) →
      (allowedCount db.scan_logs uid tag.id : ℤ) ≤ N →
      (allowedCount
          (scans.foldl (fun d p => scanFinalDB d uid p.1 p.2) db).scan_logs
          uid tag.id : ℤ) ≤ N) ∧
    (∀ (now : ℚ) (req : NFCScanRequest), req.udid = udid →
      N ≤ (allowedCount db.scan_logs uid tag.id : ℤ) →
      ∃ resp l, scan_nfc db uid now req = .ok (resp, db.addLog l) ∧
        resp.allowed = false ∧ l.allowed = false) ∧
    (∀ (now : ℚ) (req : NFCScanRequest), req.udid = udid →
      N ≤ (allowedCount db.scan_logs uid tag.id : ℤ) →
      (tag.cooldown_sec ≤ 0 ∨
        latestScan (cooldownWindow db.scan_logs uid tag.id (now - tag.cooldown_sec))
          = none) →
      scanReason (scan_nfc db uid now req)
        = some "Usage limit reached for this NFC tag") := by
  refine ⟨?_, ?_, ?_⟩
  · intro scans hall hc
    exact allowedCount_scan_fold_le uid udid tag N hlim scans db hfind hall hc
  · intro now req hud hcount
    rw [← hud] at hfind
    simp only [scan_nfc, hfind, hact, if_true, scanCooldown]
    by_cases hcd : (0 : Int) < tag.cooldown_sec
    · simp only [hcd, if_true]
      cases hr : latestScan
          (cooldownWindow db.scan_logs uid tag.id (now - tag.cooldown_sec)) with
      | some r => exact ⟨_, _, rfl, rfl, rfl⟩
      | none =>
          simp only [scanUsage, hlim, hcount, if_true]
          exact ⟨_, _, rfl, rfl, rfl⟩
    · simp only [hcd, if_false, scanUsage, hlim, hcount, if_true]
      exact ⟨_, _, rfl, rfl, rfl⟩
  · intro now req hud hcount hpass
    rw [← hud] at hfind
    simp only [scan_nfc, hfind, hact, if_true, scanCooldown]
    rcases hpass with hcd | hnone
    · have hcd2 : ¬ (0 : Int) < tag.cooldown_sec := not_lt.mpr hcd
      simp only [hcd2, if_false, scanUsage, hlim, hcount, if_true, scanReason]
    · by_cases hcd : (0 : Int) < tag.cooldown_sec
      · simp only [hcd, if_true, hnone, scanUsage, hlim, hcount, if_true, scanReason]
      · simp only [hcd, if_false, scanUsage, hlim, hcount, if_true, scanReason]

unseal Rat.sub in
theorem c5_usage_limit_witness :
    (allowedCount
        (([((200 : ℚ), ({ udid := "TAG1" } : NFCScanRequest))].foldl
          (fun d p => scanFinalDB d 1 p.1 p.2) dbC5)).scan_logs 1 7 : ℤ) ≤ 1 ∧
    scanReason (scan_nfc dbC5 1 200 ⟨"TAG1", none⟩)
      = some "Usage limit reached for this NFC tag" := by
  have h := c5_usage_limit dbC5 1 "TAG1" ⟨7, "TAG1", "tagA", true, 100, some 1, 10⟩ 1
    (by decide) (by decide) (by decide)
  exact ⟨h.1 [(200, ⟨"TAG1", none⟩)] (by decide) (by decide),
         h.2.2 200 ⟨"TAG1", none⟩ rfl (by decide) (Or.inr (by decide))⟩

/-- C6: Stage-clear idempotence — when the user's progress on the
stage is already `cleared`, clearing again returns cleared=true with
exactly the previously recorded ledger entries tagged with this
(user, stage), grants nothing, and leaves the state (including
`best_time_sec`) completely unchanged. -/
theorem c6_stage_clear_idempotent (db : DB) (uid : Nat) (now : ℚ)
    (stageId : Nat) (best : Option Int) (stage : StageRec)
    (content : ContentRec) (p : UserStageProgress)
    (hstage : db.stages.find? (fun s => s.id == stageId) = some stage)
    (hcontent : db.contents.find? (fun c => c.id == stage.content_id) = some content)
    (hp : db.stage_progress.find?
      (fun q => q.user_id == uid && q.stage_id == stageId) = some p)
    (hcleared : p.status = "cleared") :
    clear_stage db uid now stageId best =
      .ok ({ cleared := true,
             rewards := (db.ledger.filter
               (fun e => e.user_id == uid && e.stage_id == some stageId)).map
               (fun e => ⟨e.coin_delta, e.note⟩),
             content_cleared := false, next_content := none }, db) := by
  have hcl : (p.status == "cleared") = true := by simp [hcleared]
  simp only [clear_stage, hstage, hcontent, hp, hcl, if_true]

theorem c6_stage_clear_idempotent_witness :
    clear_stage dbC6w 1 100 1 (some 30) =
      .ok ({ cleared := true, rewards := [⟨7, some "stage reward"⟩],
             content_cleared := false, next_content := none }, dbC6w) := by
  have h := c6_stage_clear_idempotent dbC6w 1 100 1 (some 30)
    ⟨1, 10, none, none⟩ ⟨10, true, true, none, none, false, none⟩
    ⟨1, 1, "cleared", some 0, some 5, 2, some 60⟩ rfl rfl rfl rfl
  exact h.trans (by decide)

/-- C7: Geofence admission boundary — for a hint with a configured
target point and a positive radius, location verification of an
authenticated user is allowed exactly when the great-circle distance
(the PostGIS `ST_Distance` oracle `gcDist`, applied to the stored
point and the supplied `POINT(lon lat)`) is at most `radius_m`; in
particular distance 0 is allowed and distance `radius_m + 1` is
denied. -/
theorem c7_geofence_boundary (gcDist : ℚ × ℚ → ℚ × ℚ → ℚ) (db : DB)
    (uid hintId : Nat) (lat lng : ℚ) (hint : StageHint) (loc : ℚ × ℚ) (r : Int)
    (hfind : db.hints.find? (fun h => h.id == hintId) = some hint)
    (hloc : hint.location = some loc)
    (hrad : hint.radius_m = some r)
    (hpos : 0 < r)
    (hu : (db.users.find? (fun u => u.id == uid)).isSome = true) :
    (verifyAllowed (verify_location gcDist db uid hintId lat lng) = true
      ↔ gcDist loc (lng, lat) ≤ (r : ℚ)) ∧
    (gcDist loc (lng, lat) = 0 →
      verifyAllowed (verify_location gcDist db uid hintId lat lng) = true) ∧
    (gcDist loc (lng, lat) = (r : ℚ) + 1 →
      verifyAllowed (verify_location gcDist db uid hintId lat lng) = false) := by
  have hz : (r == 0) = false := by
    have : r ≠ 0 := by omega
    simpa using this
  have hiff : verifyAllowed (verify_location gcDist db uid hintId lat lng) = true
      ↔ gcDist loc (lng, lat) ≤ (r : ℚ) := by
    by_cases hd : (r : ℚ) < gcDist loc (lng, lat)
    · have hfalse : verifyAllowed (verify_location gcDist db uid hintId lat lng)
          = false := by
        simp only [verify_location, hfind, hloc, hrad, hz, Bool.false_eq_true,
          if_false, decide_eq_true_eq, hd, if_true, verifyAllowed]
      rw [hfalse]
      constructor
      · intro hx
        exact absurd hx (by simp)
      · intro hle
        exact absurd hd (not_lt.mpr hle)
    · have htrue : verifyAllowed (verify_location gcDist db uid hintId lat lng)
          = true := by
        simp only [verify_location, hfind, hloc, hrad, hz, Bool.false_eq_true,
          if_false, decide_eq_true_eq, hd, if_false, addLedger_users]
        by_cases hr2 : (0 : Int) < hint.reward_coin
        · simp only [hr2, if_true]
          cases hu2 : db.users.find? (fun u => u.id == uid) with
          | none =>
              rw [hu2] at hu
              simp at hu
          | some u => rfl
        · simp only [hr2, if_false]
          rfl
      rw [htrue]
      simp only [true_iff]
      exact not_lt.mp hd
  refine ⟨hiff, ?_, ?_⟩
  · intro h0
    refine hiff.mpr ?_
    rw [h0]
    exact_mod_cast le_of_lt (by exact_mod_cast hpos)
  · intro h1
    cases hb : verifyAllowed (verify_location gcDist db uid hintId lat lng) with
    | false => rfl
    | true =>
        have := hiff.mp hb
        rw [h1] at this
        linarith

theorem c7_geofence_boundary_witness :
    verifyAllowed (verify_location (fun _ _ => 5) dbC7w 1 40 0 0) = true ∧
    verifyAllowed (verify_location (fun _ _ => 0) dbC7w 1 40 0 0) = true ∧
    verifyAllowed (verify_location (fun _ _ => 11) dbC7w 1 40 0 0) = false := by
  have h5 := c7_geofence_boundary (fun _ _ => 5) dbC7w 1 40 0 0
    ⟨40, 1, 1, 0, none, some (0, 0), some 10⟩ (0, 0) 10 rfl rfl rfl
    (by decide) (by decide)
  have h0 := c7_geofence_boundary (fun _ _ => 0) dbC7w 1 40 0 0
    ⟨40, 1, 1, 0, none, some (0, 0), some 10⟩ (0, 0) 10 rfl rfl rfl
    (by decide) (by decide)
  have h11 := c7_geofence_boundary (fun _ _ => 11) dbC7w 1 40 0 0
    ⟨40, 1, 1, 0, none, some (0, 0), some 10⟩ (0, 0) 10 rfl rfl rfl
    (by decide) (by decide)
  exact ⟨h5.1.mpr (by norm_num), h0.2.1 rfl, h11.2.2 (by norm_num)⟩

lemma joinWindowErr_none (content : ContentRec) (now : ℚ)
    (hwin : content.is_always_on = true ∨
      ((∀ s, content.start_at = some s → ¬ now < s) ∧
       (∀ e2, content.end_at = some e2 → ¬ e2 < now))) :
    joinWindowErr content now = none := by
  rcases hwin with h | ⟨h1, h2⟩
  · simp [joinWindowErr, h]
  · unfold joinWindowErr
    by_cases ha : content.is_always_on = true
    · simp [ha]
    · simp only [ha, Bool.false_eq_true, if_false]
      cases hst : content.start_at with
      | some s =>
          have hs := h1 s hst
          simp only [hs, decide_eq_true_eq, if_false]
          cases hend : content.end_at with
          | some e2 =>
              have he := h2 e2 hend
              simp [he]
          | none => rfl
      | none =>
          cases hend : content.end_at with
          | some e2 =>
              have he := h2 e2 hend
              simp [he]
          | none => rfl

/-- C8 counterexample: the password-forgot endpoint answers the same
request with different messages depending on whether the account
exists (`dbC8a` has the account "alice", `dbC8b` does not), so the
caller can distinguish the two cases. -/
theorem c8_forgot_password_counterexample :
    (request_password_reset dbC8a "alice" "H" true).1 ≠
      (request_password_reset dbC8b "alice" "H" true).1 := by
  decide

/-- C8 (amended): the forgot-password endpoint always returns an
HTTP-200 message-shaped response, but the message text depends on
account existence — a nonexistent id/email yields the dedicated
"nonexistent id or email" message, while an existing local account
with a registered email yields the temporary-password-sent message
(or an email-failure message), so account enumeration is possible. -/
theorem c8_forgot_password_reveals_existence (db : DB)
    (idOrEmail tempHash : String) (emailOk : Bool) :
    (db.users.find? (fun u => u.login_id == idOrEmail || u.email == some idOrEmail)
        = none →
      (request_password_reset db idOrEmail tempHash emailOk).1
        = "존재하지않는 아이디 또는 이메일입니다.") ∧
    (∀ user, db.users.find?
        (fun u => u.login_id == idOrEmail || u.email == some idOrEmail)
          = some user →
      emailMissing user.email = false →
      ∀ a, db.auth_identities.find?
          (fun x => x.user_id == user.id && x.provider == "local") = some a →
      (request_password_reset db idOrEmail tempHash emailOk).1
        = (if emailOk then "임시비밀번호를 전송하였습니다"
           else "이메일 전송 중 오류가 발생했습니다.")) := by
  constructor
  · intro hnone
    simp only [request_password_reset, hnone]
  · intro user hsome hmail a ha
    simp only [request_password_reset, hsome, hmail, Bool.false_eq_true, if_false, ha]
    cases emailOk <;> rfl

theorem c8_forgot_password_reveals_existence_witness :
    (request_password_reset dbC8a "alice" "H" true).1
      = "임시비밀번호를 전송하였습니다" ∧
    (request_password_reset dbC8b "alice" "H" true).1
      = "존재하지않는 아이디 또는 이메일입니다." := by
  have ha := c8_forgot_password_reveals_existence dbC8a "alice" "H" true
  have hb := c8_forgot_password_reveals_existence dbC8b "alice" "H" true
  exact ⟨(ha.2 ⟨1, "alice", some "a@x.com", some ⟨some 0, false⟩⟩ rfl rfl
            ⟨1, "local", some "oldhash"⟩ rfl).trans rfl,
         hb.1 rfl⟩

/-- C9 counterexample: on `dbC9` (open always-on content 10, user 1
without a progress row), the first join creates the progress row with
status "in_progress", not 'joined' as the claim states. -/
theorem c9_join_status_counterexample :
    joinStatus (join_content dbC9 1 0 10) = some "in_progress" ∧
    (finalDB dbC9 (join_content dbC9 1 0 10)).content_progress =
      [⟨1, 10, "in_progress", some 0, none⟩] ∧
    "in_progress" ≠ "joined" := by
  decide

/-- C9 (amended): content join semantics and idempotence — for an
open content inside its active window (or always-on), the first join
creates the user's progress row with status "in_progress" (not
'joined') and sets `joined_at`; every repeated join returns success
with the current status and creates no second row (the state is
unchanged). -/
theorem c9_join_content (db : DB) (uid : Nat) (now : ℚ) (contentId : Nat)
    (content : ContentRec)
    (hfind : db.contents.find? (fun c => c.id == contentId) = some content)
    (hopen : content.is_open = true)
    (hwin : content.is_always_on = true ∨
      ((∀ s, content.start_at = some s → ¬ now < s) ∧
       (∀ e2, content.end_at = some e2 → ¬ e2 < now))) :
    (db.content_progress.find?
        (fun p => p.user_id == uid && p.content_id == contentId) = none →
      join_content db uid now contentId =
        .ok ({ joined := true, status := "in_progress" },
             { db with content_progress := db.content_progress ++
                 [{ user_id := uid, content_id := contentId,
                    status := "in_progress", joined_at := some now,
                    cleared_at := none }] })) ∧
    (∀ p, db.content_progress.find?
        (fun q => q.user_id == uid && q.content_id == contentId) = some p →
      join_content db uid now contentId =
        .ok ({ joined := true, status := p.status }, db)) := by
  have hw := joinWindowErr_none content now hwin
  constructor
  · intro hnone
    simp only [join_content, hfind, hopen, Bool.not_true, Bool.false_eq_true,
      if_false, hw, hnone]
  · intro p hsome
    simp only [join_content, hfind, hopen, Bool.not_true, Bool.false_eq_true,
      if_false, hw, hsome]

theorem c9_join_content_witness :
    join_content dbC9 1 0 10 =
      .ok ({ joined := true, status := "in_progress" },
           { dbC9 with content_progress := [⟨1, 10, "in_progress", some 0, none⟩] }) := by
  have h := c9_join_content dbC9 1 0 10 ⟨10, true, true, none, none, false, none⟩
    rfl rfl (Or.inl rfl)
  exact (h.1 rfl).trans (by decide)

/-- C10: Hintless scans still reward — when the tag is found and
active, the cooldown and usage-limit gates pass, and hint resolution
yields no hint row (none supplied and none bound, or a supplied id
matching no row), the scan returns allowed=true with null `hint` and
`next`, appends exactly one allowed scan-log row, grants
`point_reward` to the ledger with the cached balance updated in the
same transaction when `point_reward > 0` (and appends no ledger row
otherwise), and leaves every stage-progress row untouched. -/
theorem c10_hintless_scan (db : DB) (uid : Nat) (now : ℚ) (req : NFCScanRequest)
    (tag : NFCTag) (u0 : UserRec)
    (hfind : db.tags.find? (fun t => t.udid == req.udid) = some tag)
    (hact : tag.is_active = true)
    (hcool : tag.cooldown_sec ≤ 0 ∨
      latestScan (cooldownWindow db.scan_logs uid tag.id (now - tag.cooldown_sec))
        = none)
    (husage : ∀ N, tag.use_limit = some N →
      (allowedCount db.scan_logs uid tag.id : ℤ) < N)
    (hhint : (resolveHint db req tag).1 = none)
    (hu : db.users.find? (fun u => u.id == uid) = some u0) :
    scan_nfc db uid now req =
      .ok ({ allowed := true, reason := none, point_reward := tag.point_reward,
             cooldown_sec := tag.cooldown_sec, hint := none, next := none },
           if 0 < tag.point_reward then
             ((db.addLog
                 { user_id := uid, nfc_id := some tag.id, scanned_at := now,
                   allowed := true, reason := none,
                   hint_id := (resolveHint db req tag).2 }).addLedger
                 { user_id := uid, coin_delta := tag.point_reward,
                   note := some s!"NFC scan: {tag.tag_name}" }).setUserPoints uid
               (cachedPoints u0 + tag.point_reward)
           else db.addLog
                 { user_id := uid, nfc_id := some tag.id, scanned_at := now,
                   allowed := true, reason := none,
                   hint_id := (resolveHint db req tag).2 }) ∧
    (finalDB db (scan_nfc db uid now req)).stage_progress = db.stage_progress := by
  have hcool2 : scanCooldown db uid now req tag = scanUsage db uid now req tag := by
    rcases hcool with hc | hnone
    · have hc2 : ¬ (0 : Int) < tag.cooldown_sec := not_lt.mpr hc
      simp only [scanCooldown, hc2, if_false]
    · by_cases hcd : (0 : Int) < tag.cooldown_sec
      · simp only [scanCooldown, hcd, if_true, hnone]
      · simp only [scanCooldown, hcd, if_false]
  have husage2 : scanUsage db uid now req tag = scanSuccess db uid now req tag := by
    cases hl : tag.use_limit with
    | none => simp only [scanUsage, hl]
    | some N =>
        have hlt := husage N hl
        have hng : ¬ (N : ℤ) ≤ (allowedCount db.scan_logs uid tag.id : ℤ) :=
          not_le.mpr hlt
        simp only [scanUsage, hl, hng, if_false]
  have hsucc : scanSuccess db uid now req tag =
      .ok ({ allowed := true, reason := none, point_reward := tag.point_reward,
             cooldown_sec := tag.cooldown_sec, hint := none, next := none },
           if 0 < tag.point_reward then
             ((db.addLog
                 { user_id := uid, nfc_id := some tag.id, scanned_at := now,
                   allowed := true, reason := none,
                   hint_id := (resolveHint db req tag).2 }).addLedger
                 { user_id := uid, coin_delta := tag.point_reward,
                   note := some s!"NFC scan: {tag.tag_name}" }).setUserPoints uid
               (cachedPoints u0 + tag.point_reward)
           else db.addLog
                 { user_id := uid, nfc_id := some tag.id, scanned_at := now,
                   allowed := true, reason := none,
                   hint_id := (resolveHint db req tag).2 }) := by
    by_cases hr : (0 : Int) < tag.point_reward
    · simp only [scanSuccess, hhint, hr, if_true, addLedger_users, addLog_users, hu,
        Option.map_none']
    · simp only [scanSuccess, hhint, hr, if_false, Option.map_none']
  constructor
  · simp only [scan_nfc, hfind, hact, if_true]
    rw [hcool2, husage2, hsucc]
  · simp only [scan_nfc, hfind, hact, if_true]
    rw [hcool2, husage2, hsucc]
    by_cases hr : (0 : Int) < tag.point_reward
    · simp only [hr, if_true, finalDB]
      rfl
    · simp only [hr, if_false, finalDB]
      rfl

theorem c10_hintless_scan_witness :
    scan_nfc dbC10w 1 0 ⟨"TAG1", none⟩ =
      .ok ({ allowed := true, reason := none, point_reward := 10,
             cooldown_sec := 100, hint := none, next := none },
           { dbC10w with
               users := [⟨1, "alice", some "a@x.com", some ⟨some 10, false⟩⟩],
               scan_logs := [⟨1, some 7, 0, true, none, none⟩],
               ledger := [⟨1, 10, some "NFC scan: tagA", none, none, none, none⟩] }) ∧
    (finalDB dbC10w (scan_nfc dbC10w 1 0 ⟨"TAG1", none⟩)).stage_progress =
      dbC10w.stage_progress := by
  have h := c10_hintless_scan dbC10w 1 0 ⟨"TAG1", none⟩
    ⟨7, "TAG1", "tagA", true, 100, some 3, 10⟩ ⟨1, "alice", some "a@x.com", some ⟨some 0, false⟩⟩
    rfl rfl (Or.inr rfl)
    (by intro N hN; injection hN with h2; subst h2; decide)
    rfl rfl
  exact ⟨h.1.trans (by decide), h.2⟩
